import Mathlib

/-!
Verification of `append_url_to_sql/models.py` (django-append-url-to-sql).

The module wraps Django's database cursor: before a SQL statement is
executed it walks the active call stack looking for a local variable
`sql_query_tag` (an explicit tag) or `request` (a Django `HttpRequest`),
and embeds the discovered string into the SQL text as a comment.

The embedding below models a Python 2 runtime to the extent the module
exercises it: values that can sit in a frame's locals, `repr`, dict
`.get`, `str.replace`, the truthiness-based `or`, and the `%` string
formatting operator with a `{'sql': ..., 'msg': ...}` mapping.  Strings
are `List Char` internally and `String` at the interfaces.
-/

namespace AppendUrlToSql

/-- The single-quote character (written via its code point). -/
def squote : Char := Char.ofNat 39

/-- Python values that the module can meet in a frame's locals.
`pyStr` is a Python 2 byte string, `pyUnicode` a unicode string.
`httpRequest` is a `django.http.HttpRequest` carrying its `path`
attribute (a unicode string in Django).  `obj` is any other object,
optionally exposing a `path` attribute; it is not an `HttpRequest`. -/
inductive PyValue where
  | pyNone
  | pyStr (s : List Char)
  | pyUnicode (s : List Char)
  | pyInt (n : Int)
  | httpRequest (path : List Char)
  | obj (path : Option (List Char))
deriving DecidableEq

/-- One hexadecimal digit, lowercase, as produced by Python escapes. -/
def hexDigit (n : Nat) : Char :=
  if n < 10 then Char.ofNat (48 + n) else Char.ofNat (87 + n)

/-- Two hex digits of `n` (low byte). -/
def hex2 (n : Nat) : List Char :=
  [hexDigit (n / 16 % 16), hexDigit (n % 16)]

/-- Four hex digits of `n`. -/
def hex4 (n : Nat) : List Char :=
  [hexDigit (n / 4096 % 16), hexDigit (n / 256 % 16), hexDigit (n / 16 % 16), hexDigit (n % 16)]

/-- Eight hex digits of `n`. -/
def hex8 (n : Nat) : List Char :=
  hex4 (n / 65536) ++ hex4 (n % 65536)

/-- How Python 2 `repr` renders one character of a string whose chosen
quote character is `q`. -/
def escapeChar (q c : Char) : List Char :=
  if c = '\\' then ['\\', '\\']
  else if c = q then ['\\', q]
  else if c = '\n' then ['\\', 'n']
  else if c = '\r' then ['\\', 'r']
  else if c = '\t' then ['\\', 't']
  else if c.toNat < 32 || c.toNat == 127 then '\\' :: 'x' :: hex2 c.toNat
  else if c.toNat ≤ 126 then [c]
  else if c.toNat < 256 then '\\' :: 'x' :: hex2 c.toNat
  else if c.toNat < 65536 then '\\' :: 'u' :: hex4 c.toNat
  else '\\' :: 'U' :: hex8 c.toNat

/-- Python `repr` quote selection: a single quote, unless the string
contains one and no double quote. -/
def reprQuote (s : List Char) : Char :=
  if squote ∈ s ∧ ¬ '"' ∈ s then '"' else squote

/-- Python 2 `repr` of a string body: chosen quote, escaped characters,
chosen quote. -/
def strRepr (s : List Char) : List Char :=
  let q := reprQuote s
  q :: (s.map (escapeChar q)).flatten ++ [q]

/-- Python 2 `repr` of a value.  `repr` of an `HttpRequest` or of a
plain object includes a memory address; it is modelled by an
address-free placeholder, which is adequate because the module never
inspects the content of these reprs. -/
def pyRepr : PyValue → List Char
  | .pyNone => "None".data
  | .pyStr s => strRepr s
  | .pyUnicode s => 'u' :: strRepr s
  | .pyInt n => (toString n).data
  | .httpRequest _ => "<HttpRequest>".data
  | .obj _ => "<object>".data

/-- A call frame's `f_locals` mapping: variable names to values. -/
abbrev Frame := List (String × PyValue)

/-- Python `f_locals.get(k, None)`: `some` the bound value, `none` when
the name is absent. -/
def pyGet (l : Frame) (k : String) : Option PyValue :=
  match l with
  | [] => none
  | (k2, v) :: rest => if k2 = k then some v else pyGet rest k

/-- Python `s.replace(old, new)` for a one-character pattern `old`:
each occurrence of `old` is replaced by `new`. -/
def pyReplace (old : Char) (new : List Char) : List Char → List Char
  | [] => []
  | c :: rest => (if c = old then new else [c]) ++ pyReplace old new rest

/-- `get_sql_query_tag(f_locals)` from models.py:
`message = f_locals.get('sql_query_tag', None)`;
`return repr(message)[1:-1] if message is not None else message`.
The slice `[1:-1]` is `drop 1` then `dropLast`. -/
def get_sql_query_tag (f_locals : Frame) : Option String :=
  match pyGet f_locals "sql_query_tag" with
  | none => none
  | some PyValue.pyNone => none
  | some v => some (String.mk (((pyRepr v).drop 1).dropLast))

/-- `get_request(f_locals)` from models.py:
`request = f_locals.get('request', None)`;
`if isinstance(request, HttpRequest): return repr(request.path)[2:-1].replace('%', '%%')`;
`return None`.  The `isinstance` check only accepts the `httpRequest`
constructor; `request.path` is a unicode string, so its repr carries a
`u` prefix which the slice `[2:-1]` strips together with the quotes. -/
def get_request (f_locals : Frame) : Option String :=
  match pyGet f_locals "request" with
  | some (PyValue.httpRequest path) =>
      some (String.mk (pyReplace '%' ['%', '%']
        (((pyRepr (PyValue.pyUnicode path)).drop 2).dropLast)))
  | _ => none

/-- `normalize_message(msg)` from models.py:
`msg = msg.replace("*", "_")` then `msg = msg.replace('%', '%%')`. -/
def normalize_message (msg : String) : String :=
  String.mk (pyReplace '%' ['%', '%'] (pyReplace '*' ['_'] msg.data))

/-- The `sql_format_strings` dict from models.py, as a lookup keyed by
the `ENGINE` setting string. -/
def sql_format_strings (engine : String) : Option String :=
  if engine = "django.db.backends.mysql" then some "/* %(msg)s */ %(sql)s "
  else if engine = "django.db.backends.sqlite3" then some "%(sql)s /* %(msg)s */"
  else none

/-- `DEFAULT_FORMAT_STRING` from models.py. -/
def DEFAULT_FORMAT_STRING : String := "%(sql)s"

/-- Python `a or b` where `a` is `dict.get`'s result (a string or
`None`): `b` when `a` is falsy (`None` or the empty string). -/
def pyOrStr (a : Option String) (b : String) : String :=
  match a with
  | none => b
  | some s => if s = "" then b else s

/-- Python's `%` formatting operator, specialised to mappings with keys
`sql` and `msg`: `%%` yields a literal percent, `%(msg)s` and `%(sql)s`
substitute the values verbatim.  The templates the module feeds in are
fixed and well formed, so the final catch-all branch (where Python
would raise on a malformed directive) is never reached. -/
def pyInterp (sql msg : List Char) : List Char → List Char
  | [] => []
  | '%' :: rest =>
    match rest with
    | '%' :: r => '%' :: pyInterp sql msg r
    | '(' :: 'm' :: 's' :: 'g' :: ')' :: 's' :: r => msg ++ pyInterp sql msg r
    | '(' :: 's' :: 'q' :: 'l' :: ')' :: 's' :: r => sql ++ pyInterp sql msg r
    | r => '%' :: pyInterp sql msg r
  | c :: rest => c :: pyInterp sql msg rest

/-- Lines 93-94 of models.py, for an already-resolved `log_message`:
`format_string = sql_format_strings.get(self.db.settings_dict.get('ENGINE', None), None) or DEFAULT_FORMAT_STRING`;
`sql = format_string % {'sql': sql, 'msg': normalize_message(log_message)}`.
A `tag` of `none` models the loop finding no message: `sql` is left
untouched. -/
def formatSql (sql : String) (tag : Option String) (engine : Option String) : String :=
  match tag with
  | none => sql
  | some msg =>
      let format_string := pyOrStr (engine.bind sql_format_strings) DEFAULT_FORMAT_STRING
      String.mk (pyInterp sql.data (normalize_message msg).data format_string.data)

/-- Python `a or b` on two optional strings, by truthiness: `a` when it
is a non-empty string, else `b`.  Models line 91:
`log_message = get_sql_query_tag(f_locals) or get_request(f_locals)`. -/
def pyOr (a b : Option String) : Option String :=
  match a with
  | none => b
  | some s => if s = "" then b else some s

/-- The value of `log_message` at which the `while f:` loop of
`execute` breaks, given the chain of frames innermost first: the first
frame whose tag-or-request lookup is not `None` supplies the message;
`none` when the walk falls off the outermost frame. -/
def resolveTag : List Frame → Option String
  | [] => none
  | f :: rest =>
    match pyOr (get_sql_query_tag f) (get_request f) with
    | some m => some m
    | none => resolveTag rest

/-- The `execute` method's transformation of `sql` before delegating to
the wrapped cursor (lines 87-96 of models.py): walk the frames, and on
the first frame yielding a message, format once and break. -/
def executeSql (frames : List Frame) (engine : Option String) (sql : String) : String :=
  match frames with
  | [] => sql
  | f :: rest =>
    match pyOr (get_sql_query_tag f) (get_request f) with
    | some m => formatSql sql (some m) engine
    | none => executeSql rest engine sql

/-- Modelled from the spec's words, for comparison with
`normalize_message` (claim C5): "replaces every literal `*` with `_`
and every literal `%` with `%%`, and does nothing else" - a one-pass
character-wise substitution. -/
def sanitizeSpec (t : String) : String :=
  String.mk ((t.data.map (fun c =>
    if c = '*' then ['_'] else if c = '%' then ['%', '%'] else [c])).flatten)

/-- Every `%` in the list is immediately followed by a pairing `%`
(scanning left to right): no unescaped percent remains. -/
def escapedPercents : List Char → Bool
  | [] => true
  | c :: rest =>
    if c = '%' then
      match rest with
      | c2 :: r2 => if c2 = '%' then escapedPercents r2 else false
      | [] => false
    else escapedPercents rest

/-- The sqlite3 scenario of the spec: trailing comment, sanitized tag. -/
theorem formatSql_sqlite3_scenario :
    formatSql "SELECT 1" (some "a*b%c") (some "django.db.backends.sqlite3")
      = "SELECT 1 /* a_b%%c */" := by decide

/-! ### Helper lemmas about `pyReplace` -/

theorem pyReplace_append (old : Char) (new a b : List Char) :
    pyReplace old new (a ++ b) = pyReplace old new a ++ pyReplace old new b := by
  induction a with
  | nil => rfl
  | cons c r ih => simp [pyReplace, ih]

theorem pyReplace_of_not_mem {old : Char} (new : List Char) {l : List Char} (h : old ∉ l) :
    pyReplace old new l = l := by
  induction l with
  | nil => rfl
  | cons c r ih =>
    simp only [List.mem_cons, not_or] at h
    simp [pyReplace, if_neg (fun hc : c = old => h.1 hc.symm), ih h.2]

theorem star_not_mem_replaceStar (l : List Char) : '*' ∉ pyReplace '*' ['_'] l := by
  induction l with
  | nil => simp [pyReplace]
  | cons c r ih =>
    by_cases hc : c = '*'
    · simp [pyReplace, hc, ih]
    · have hc2 : ('*' : Char) ≠ c := fun h => hc h.symm
      simp [pyReplace, hc, ih, hc2]

theorem not_mem_pyReplace {a old : Char} {new l : List Char} (h1 : a ∉ l) (h2 : a ∉ new) :
    a ∉ pyReplace old new l := by
  induction l with
  | nil => simp [pyReplace]
  | cons c r ih =>
    simp only [List.mem_cons, not_or] at h1
    by_cases hc : c = old
    · simp [pyReplace, hc, h2, ih h1.2]
    · simp [pyReplace, hc, h1.1, ih h1.2]

theorem count_pyReplace_star (l : List Char) :
    (pyReplace '*' ['_'] l).count '%' = l.count '%' := by
  induction l with
  | nil => rfl
  | cons c r ih =>
    by_cases hc : c = '*'
    · subst hc
      simp [pyReplace, ih, List.count_cons, List.count_append]
    · simp [pyReplace, hc, ih, List.count_cons, List.count_append]

theorem count_pyReplace_percent (l : List Char) :
    (pyReplace '%' ['%', '%'] l).count '%' = 2 * l.count '%' := by
  induction l with
  | nil => rfl
  | cons c r ih =>
    by_cases hc : c = '%'
    · subst hc
      simp [pyReplace, ih, List.count_cons, List.count_append]
      omega
    · simp [pyReplace, hc, ih, List.count_cons, List.count_append]

theorem escapedPercents_cons_ne {c : Char} (r : List Char) (h : c ≠ '%') :
    escapedPercents (c :: r) = escapedPercents r := by
  rw [escapedPercents.eq_def]
  simp [h]

theorem escapedPercents_pp (r : List Char) :
    escapedPercents ('%' :: '%' :: r) = escapedPercents r := by
  rw [escapedPercents.eq_def]
  simp

theorem escapedPercents_replace (l : List Char) :
    escapedPercents (pyReplace '%' ['%', '%'] l) = true := by
  induction l with
  | nil => rfl
  | cons c r ih =>
    by_cases hc : c = '%'
    · subst hc
      simpa [pyReplace, escapedPercents_pp] using ih
    · simpa [pyReplace, hc, escapedPercents_cons_ne _ hc] using ih

theorem normalize_message_data (t : String) :
    (normalize_message t).data = pyReplace '%' ['%', '%'] (pyReplace '*' ['_'] t.data) := rfl

theorem normalize_eq_spec_list (l : List Char) :
    pyReplace '%' ['%', '%'] (pyReplace '*' ['_'] l)
      = (l.map (fun c =>
          if c = '*' then ['_'] else if c = '%' then ['%', '%'] else [c])).flatten := by
  induction l with
  | nil => rfl
  | cons c r ih =>
    by_cases h1 : c = '*'
    · subst h1
      simp [pyReplace, pyReplace_append, ih]
    · by_cases h2 : c = '%'
      · subst h2
        simp [pyReplace, pyReplace_append, h1, ih]
      · simp [pyReplace, pyReplace_append, h1, h2, ih]

/-! ### Helper lemmas about `repr` -/

/-- Characters whose Python `repr` escape (under a single-quote
delimiter) is the character itself: printable ASCII other than the
backslash and the single quote. -/
def plainChar (c : Char) : Prop :=
  32 ≤ c.toNat ∧ c.toNat ≤ 126 ∧ c ≠ '\\' ∧ c ≠ squote

instance (c : Char) : Decidable (plainChar c) := by
  unfold plainChar
  infer_instance

theorem escapeChar_plain {c : Char} (h : plainChar c) : escapeChar squote c = [c] := by
  obtain ⟨h1, h2, h3, h4⟩ := h
  have hn : c ≠ '\n' := by
    intro e
    subst e
    exact absurd h1 (by decide)
  have hr : c ≠ '\r' := by
    intro e
    subst e
    exact absurd h1 (by decide)
  have ht : c ≠ '\t' := by
    intro e
    subst e
    exact absurd h1 (by decide)
  have hb : (c.toNat < 32 || c.toNat == 127) = false := by
    simp
    omega
  simp [escapeChar, h3, h4, hn, hr, ht, hb, h2]

theorem flatten_map_escape_plain {s : List Char} (h : ∀ c ∈ s, plainChar c) :
    (s.map (escapeChar squote)).flatten = s := by
  induction s with
  | nil => rfl
  | cons c r ih =>
    simp only [List.map_cons, List.flatten_cons]
    rw [escapeChar_plain (h c (List.mem_cons_self c r)),
      ih (fun d hd => h d (List.mem_cons_of_mem _ hd))]
    rfl

theorem reprQuote_plain {s : List Char} (h : ∀ c ∈ s, plainChar c) : reprQuote s = squote := by
  unfold reprQuote
  rw [if_neg]
  intro hmem
  exact (h squote hmem.1).2.2.2 rfl

theorem strRepr_plain {s : List Char} (h : ∀ c ∈ s, plainChar c) :
    strRepr s = squote :: (s ++ [squote]) := by
  simp [strRepr, reprQuote_plain h, flatten_map_escape_plain h]

theorem strRepr_drop1_dropLast (s : List Char) :
    ((strRepr s).drop 1).dropLast = (s.map (escapeChar (reprQuote s))).flatten := by
  simp [strRepr]

theorem uniRepr_drop2_dropLast (s : List Char) :
    ((pyRepr (PyValue.pyUnicode s)).drop 2).dropLast
      = (s.map (escapeChar (reprQuote s))).flatten := by
  show (((strRepr s)).drop 1).dropLast = _
  exact strRepr_drop1_dropLast s

theorem reprQuote_ne_percent (s : List Char) : reprQuote s ≠ '%' := by
  unfold reprQuote
  split <;> decide

theorem hexDigit_ne_percent : ∀ n, n < 16 → hexDigit n ≠ '%' := by decide

theorem count_hex2 (n : Nat) : (hex2 n).count '%' = 0 := by
  have d1 := hexDigit_ne_percent (n / 16 % 16) (Nat.mod_lt _ (by norm_num))
  have d2 := hexDigit_ne_percent (n % 16) (Nat.mod_lt _ (by norm_num))
  simp [hex2, List.count_cons, d1, d2]

theorem count_hex4 (n : Nat) : (hex4 n).count '%' = 0 := by
  have d1 := hexDigit_ne_percent (n / 4096 % 16) (Nat.mod_lt _ (by norm_num))
  have d2 := hexDigit_ne_percent (n / 256 % 16) (Nat.mod_lt _ (by norm_num))
  have d3 := hexDigit_ne_percent (n / 16 % 16) (Nat.mod_lt _ (by norm_num))
  have d4 := hexDigit_ne_percent (n % 16) (Nat.mod_lt _ (by norm_num))
  simp [hex4, List.count_cons, d1, d2, d3, d4]

theorem count_hex8 (n : Nat) : (hex8 n).count '%' = 0 := by
  simp [hex8, List.count_append, count_hex4]

theorem count_escapeChar {q : Char} (hq : q ≠ '%') (c : Char) :
    (escapeChar q c).count '%' = if c = '%' then 1 else 0 := by
  by_cases hc : c = '%'
  · subst hc
    rw [if_pos rfl]
    unfold escapeChar
    rw [if_neg (by decide : ¬ ('%' : Char) = '\\'),
      if_neg (fun h : ('%' : Char) = q => hq h.symm),
      if_neg (by decide : ¬ ('%' : Char) = '\n'),
      if_neg (by decide : ¬ ('%' : Char) = '\r'),
      if_neg (by decide : ¬ ('%' : Char) = '\t'),
      if_neg (by decide : ¬ ((('%' : Char).toNat < 32 || ('%' : Char).toNat == 127) = true)),
      if_pos (by decide : ('%' : Char).toNat ≤ 126)]
    decide
  · rw [if_neg hc]
    unfold escapeChar
    split_ifs <;> simp_all [List.count_cons, count_hex2, count_hex4, count_hex8]

theorem count_flatten_map_escape {q : Char} (hq : q ≠ '%') (s : List Char) :
    ((s.map (escapeChar q)).flatten).count '%' = s.count '%' := by
  induction s with
  | nil => rfl
  | cons c r ih =>
    by_cases hc : c = '%'
    · simp [List.count_append, count_escapeChar hq, hc, ih, List.count_cons]
      omega
    · simp [List.count_append, count_escapeChar hq, hc, ih, List.count_cons]

theorem strMk_data (s : String) : String.mk s.data = s := rfl

theorem pyInterp_default (sql msg : List Char) :
    pyInterp sql msg ['%', '(', 's', 'q', 'l', ')', 's'] = sql := by
  show sql ++ pyInterp sql msg [] = sql
  show sql ++ [] = sql
  simp

/-! ### The claims -/

/-- Claim C1, counterexample: a frame whose locals bind (under the
module's reserved name `request`) a value that possesses a `path`
attribute but is not an `HttpRequest` is NOT treated as request-like:
the lookup returns `None`, not the path string.  The code checks
`isinstance(request, HttpRequest)`, not duck typing. -/
theorem claim_C1_counterexample :
    get_request [("request", PyValue.obj (some "/x".data))] = none
    ∧ get_request [("request", PyValue.obj (some "/x".data))] ≠ some "/x" := by
  constructor <;> decide

/-- Claim C1, amended: only a value that is an instance of
`HttpRequest`, bound under the local name `request`, is treated as
request-like; for such a frame the lookup returns the request's path
string (its repr body, with every `%` doubled) - for plain printable
paths, the path itself with `%` doubled. -/
theorem claim_C1_amended (l : Frame) (path : List Char)
    (h : pyGet l "request" = some (PyValue.httpRequest path))
    (hp : ∀ c ∈ path, plainChar c) :
    get_request l = some (String.mk (pyReplace '%' ['%', '%'] path)) := by
  have e : get_request l = some (String.mk (pyReplace '%' ['%', '%']
      (((pyRepr (PyValue.pyUnicode path)).drop 2).dropLast))) := by
    unfold get_request
    rw [h]
  rw [e, uniRepr_drop2_dropLast, reprQuote_plain hp, flatten_map_escape_plain hp]

/-- Claim C1, witness: the amended statement evaluated on a one-frame
stack binding an `HttpRequest` with path `/login`. -/
theorem claim_C1_witness :
    get_request [("request", PyValue.httpRequest "/login".data)]
      = some (String.mk (pyReplace '%' ['%', '%'] "/login".data)) :=
  claim_C1_amended [("request", PyValue.httpRequest "/login".data)] "/login".data
    (by decide) (by decide)

/-- Claim C2, counterexample: sanitizing is NOT idempotent - on the tag
`"%"` one pass yields `"%%"` and a second pass yields `"%%%%"`. -/
theorem claim_C2_counterexample :
    normalize_message (normalize_message "%") ≠ normalize_message "%" := by decide

/-- Claim C2, amended: sanitizing twice equals sanitizing once for tags
containing no `%` (the `%`-doubling step is what breaks idempotence);
and for every tag the sanitized result contains no `*` at all and every
`%` in it is escaped (occurs in left-to-right adjacent pairs). -/
theorem claim_C2_amended (t : String) :
    ('%' ∉ t.data → normalize_message (normalize_message t) = normalize_message t)
    ∧ '*' ∉ (normalize_message t).data
    ∧ escapedPercents (normalize_message t).data = true := by
  refine ⟨?_, ?_, ?_⟩
  · intro h
    have hu : '%' ∉ pyReplace '*' ['_'] t.data := not_mem_pyReplace h (by decide)
    have h1 : pyReplace '%' ['%', '%'] (pyReplace '*' ['_'] t.data)
        = pyReplace '*' ['_'] t.data := pyReplace_of_not_mem _ hu
    show String.mk (pyReplace '%' ['%', '%'] (pyReplace '*' ['_']
        (pyReplace '%' ['%', '%'] (pyReplace '*' ['_'] t.data))))
      = String.mk (pyReplace '%' ['%', '%'] (pyReplace '*' ['_'] t.data))
    rw [h1, pyReplace_of_not_mem _ (star_not_mem_replaceStar t.data), h1]
  · rw [normalize_message_data]
    exact not_mem_pyReplace (star_not_mem_replaceStar t.data) (by decide)
  · rw [normalize_message_data]
    exact escapedPercents_replace _

/-- Claim C2, witness: idempotence on the `%`-free tag `"a*b"`, and the
star-freedom and percent-escaping of the sanitized `"a*b%c"`. -/
theorem claim_C2_witness :
    normalize_message (normalize_message "a*b") = normalize_message "a*b"
    ∧ '*' ∉ (normalize_message "a*b%c").data
    ∧ escapedPercents (normalize_message "a*b%c").data = true :=
  ⟨(claim_C2_amended "a*b").1 (by decide),
   (claim_C2_amended "a*b%c").2.1,
   (claim_C2_amended "a*b%c").2.2⟩

/-- Claim C3, counterexample: with the engine identifier literally
`"mysql"` the formatter finds no template (the table is keyed by the
full `ENGINE` setting `"django.db.backends.mysql"`), so the SQL passes
through unannotated instead of gaining the leading comment. -/
theorem claim_C3_counterexample :
    formatSql "SELECT 1" (some "/login") (some "mysql") = "SELECT 1"
    ∧ formatSql "SELECT 1" (some "/login") (some "mysql") ≠ "/* /login */ SELECT 1 " := by
  constructor <;> decide

/-- Claim C3, amended: with the engine identifier
`"django.db.backends.mysql"` (the key actually present in
`sql_format_strings`), formatting `"SELECT 1"` with tag `"/login"`
yields exactly `"/* /login */ SELECT 1 "`. -/
theorem claim_C3_amended :
    formatSql "SELECT 1" (some "/login") (some "django.db.backends.mysql")
      = "/* /login */ SELECT 1 " := by decide

/-- Claim C4: when the stack walk resolves no tag (`resolveTag` is
`none`), the statement forwarded to the driver is exactly the input
SQL, for every SQL string and engine. -/
theorem claim_C4 : ∀ (frames : List Frame) (engine : Option String) (sql : String),
    resolveTag frames = none → executeSql frames engine sql = sql := by
  intro frames engine sql
  induction frames with
  | nil => intro _; rfl
  | cons f rest ih =>
    intro h
    cases hp : pyOr (get_sql_query_tag f) (get_request f) with
    | some m =>
      exfalso
      simp [resolveTag, hp] at h
    | none =>
      have h2 : resolveTag rest = none := by
        simpa [resolveTag, hp] using h
      simpa [executeSql, hp] using ih h2

/-- Claim C4, witness: a stack of one frame with no tag and no request
leaves `"SELECT 1"` untouched. -/
theorem claim_C4_witness :
    resolveTag [[("other", PyValue.pyInt 0)]] = none
    ∧ executeSql [[("other", PyValue.pyInt 0)]] (some "django.db.backends.mysql") "SELECT 1"
        = "SELECT 1" :=
  ⟨by decide, claim_C4 _ _ _ (by decide)⟩

/-- Claim C5: `normalize_message` replaces every literal `*` with `_`
and every literal `%` with `%%` and does nothing else: it coincides
with the character-wise substitution `sanitizeSpec` written from the
spec's words, for every tag string. -/
theorem claim_C5 (t : String) : normalize_message t = sanitizeSpec t := by
  unfold normalize_message sanitizeSpec
  rw [normalize_eq_spec_list]

/-- Claim C6: when the engine identifier is not a key of
`sql_format_strings`, the formatter falls back to
`DEFAULT_FORMAT_STRING` and returns the SQL unchanged with no
annotating comment (and, being a total function, it never raises). -/
theorem claim_C6 (sql tag engine : String) (h : sql_format_strings engine = none) :
    formatSql sql (some tag) (some engine) = sql := by
  simp only [formatSql, Option.some_bind]
  rw [h]
  simp only [pyOrStr]
  rw [show DEFAULT_FORMAT_STRING.data = ['%', '(', 's', 'q', 'l', ')', 's'] from rfl,
    pyInterp_default, strMk_data]

/-- Claim C6, witness: the engine `"unknown_db"` is not in the table
and `"SELECT 1"` passes through unchanged. -/
theorem claim_C6_witness :
    sql_format_strings "unknown_db" = none
    ∧ formatSql "SELECT 1" (some "/login") (some "unknown_db") = "SELECT 1" :=
  ⟨by decide, claim_C6 _ _ _ (by decide)⟩

/-- Claim C7: at most one annotating format is applied per statement -
the loop's output is a single `formatSql` application at the resolved
tag; the walk halts at the first frame yielding a message (the result
does not depend on outer frames); and within a frame a non-empty
explicit tag is taken before, and regardless of, the request lookup. -/
theorem claim_C7 :
    (∀ (frames : List Frame) (engine : Option String) (sql : String),
      executeSql frames engine sql = formatSql sql (resolveTag frames) engine)
    ∧ (∀ (f : Frame) (rest : List Frame) (m : String),
      pyOr (get_sql_query_tag f) (get_request f) = some m →
        resolveTag (f :: rest) = some m)
    ∧ (∀ (f : Frame) (rest : List Frame) (t : String),
      get_sql_query_tag f = some t → t ≠ "" → resolveTag (f :: rest) = some t) := by
  refine ⟨?_, ?_, ?_⟩
  · intro frames engine sql
    induction frames with
    | nil => rfl
    | cons f rest ih =>
      cases hp : pyOr (get_sql_query_tag f) (get_request f) with
      | some m => simp [executeSql, resolveTag, hp]
      | none => simpa [executeSql, resolveTag, hp] using ih
  · intro f rest m h
    simp [resolveTag, h]
  · intro f rest t h ht
    simp [resolveTag, pyOr, h, ht]

/-- Claim C7, witness: the loop-equals-one-format identity on a
concrete stack, and the halt of the walk on a frame carrying both an
explicit tag and a request, returning the tag. -/
theorem claim_C7_witness :
    executeSql [[("sql_query_tag", PyValue.pyStr "t1".data)]]
        (some "django.db.backends.mysql") "S"
      = formatSql "S" (resolveTag [[("sql_query_tag", PyValue.pyStr "t1".data)]])
          (some "django.db.backends.mysql")
    ∧ resolveTag [[("sql_query_tag", PyValue.pyStr "t1".data),
        ("request", PyValue.httpRequest "/r".data)]] = some "t1" :=
  ⟨claim_C7.1 _ _ _, claim_C7.2.2 _ [] _ (by decide) (by decide)⟩

/-- Claim C8, counterexample: a non-string tag value is NOT coerced to
its string representation: for the integer `123` the lookup returns
`"2"` (the repr `"123"` with its first and last characters stripped),
not `"123"`. -/
theorem claim_C8_counterexample :
    get_sql_query_tag [("sql_query_tag", PyValue.pyInt 123)] = some "2"
    ∧ get_sql_query_tag [("sql_query_tag", PyValue.pyInt 123)] ≠ some "123" := by
  constructor <;> decide

/-- Claim C8, amended: for every non-`None` tag value the lookup never
raises and returns `repr(value)` with its first and last characters
stripped; this recovers the value itself only when the repr is
quote-delimited, i.e. for plain strings. -/
theorem claim_C8_amended :
    (∀ (l : Frame) (v : PyValue), pyGet l "sql_query_tag" = some v → v ≠ PyValue.pyNone →
      get_sql_query_tag l = some (String.mk (((pyRepr v).drop 1).dropLast)))
    ∧ (∀ s : List Char, (∀ c ∈ s, plainChar c) →
      get_sql_query_tag [("sql_query_tag", PyValue.pyStr s)] = some (String.mk s)) := by
  constructor
  · intro l v h hv
    cases v <;> simp_all [get_sql_query_tag]
  · intro s hs
    have e : get_sql_query_tag [("sql_query_tag", PyValue.pyStr s)]
        = some (String.mk (((strRepr s).drop 1).dropLast)) := by
      simp [get_sql_query_tag, pyGet, pyRepr]
    rw [e, strRepr_drop1_dropLast, reprQuote_plain hs, flatten_map_escape_plain hs]

/-- Claim C8, witness: the amended statement at the integer `42` and at
the plain string `"/a"`. -/
theorem claim_C8_witness :
    get_sql_query_tag [("sql_query_tag", PyValue.pyInt 42)]
        = some (String.mk (((pyRepr (PyValue.pyInt 42)).drop 1).dropLast))
    ∧ get_sql_query_tag [("sql_query_tag", PyValue.pyStr "/a".data)]
        = some (String.mk "/a".data) :=
  ⟨claim_C8_amended.1 _ _ (by decide) (by decide), claim_C8_amended.2 _ (by decide)⟩

/-- Claim C9: the stack walk is a pure function of the frames (the
embedding is total, so no exception paths exist); when the reserved
names are absent from a frame's locals, or `request` is bound to a
value that is not an `HttpRequest` (in particular an object lacking or
even possessing a `path` attribute), the walk continues with the next
enclosing frame. -/
theorem claim_C9 :
    (∀ (f : Frame) (rest : List Frame), pyGet f "sql_query_tag" = none →
      pyGet f "request" = none → resolveTag (f :: rest) = resolveTag rest)
    ∧ (∀ (f : Frame) (rest : List Frame) (v : PyValue), pyGet f "sql_query_tag" = none →
      pyGet f "request" = some v → (∀ p, v ≠ PyValue.httpRequest p) →
        resolveTag (f :: rest) = resolveTag rest)
    ∧ (∀ p : Option (List Char), get_request [("request", PyValue.obj p)] = none) := by
  refine ⟨?_, ?_, ?_⟩
  · intro f rest h1 h2
    simp [resolveTag, pyOr, get_sql_query_tag, get_request, h1, h2]
  · intro f rest v h1 h2 h3
    have hr : get_request f = none := by
      cases v
      case httpRequest path => exact absurd rfl (h3 path)
      all_goals simp [get_request, h2]
    simp [resolveTag, pyOr, get_sql_query_tag, h1, hr]
  · intro p
    simp [get_request, pyGet]

/-- Claim C9, witness: a frame with unrelated locals, and a frame whose
`request` is a string, are both skipped; an object bound as `request`
with no `path` attribute yields no message. -/
theorem claim_C9_witness :
    resolveTag [[("other", PyValue.pyInt 0)], [("sql_query_tag", PyValue.pyStr "t".data)]]
        = resolveTag [[("sql_query_tag", PyValue.pyStr "t".data)]]
    ∧ resolveTag [[("request", PyValue.pyStr "/x".data)],
        [("sql_query_tag", PyValue.pyStr "t".data)]]
        = resolveTag [[("sql_query_tag", PyValue.pyStr "t".data)]]
    ∧ get_request [("request", PyValue.obj none)] = none :=
  ⟨claim_C9.1 _ _ (by decide) (by decide),
   claim_C9.2.1 _ _ (PyValue.pyStr "/x".data) (by decide) (by decide) (fun p => by simp),
   claim_C9.2.2 none⟩

/-- Claim C10: a request-derived message has its percent signs escaped
twice (once by `get_request`, once by `normalize_message`), so the
embedded message carries four `%` per original `%` of the path, whereas
an explicit string tag's `%` is escaped once, to two `%`. -/
theorem claim_C10 :
    (∀ (l : Frame) (path : List Char), pyGet l "request" = some (PyValue.httpRequest path) →
      ∃ m : String, get_request l = some m
        ∧ (normalize_message m).data.count '%' = 4 * path.count '%')
    ∧ (∀ (l : Frame) (s : List Char), pyGet l "sql_query_tag" = some (PyValue.pyStr s) →
      ∃ m : String, get_sql_query_tag l = some m
        ∧ (normalize_message m).data.count '%' = 2 * s.count '%') := by
  constructor
  · intro l path h
    refine ⟨String.mk (pyReplace '%' ['%', '%']
      (((pyRepr (PyValue.pyUnicode path)).drop 2).dropLast)), ?_, ?_⟩
    · unfold get_request
      rw [h]
    · rw [normalize_message_data]
      show (pyReplace '%' ['%', '%'] (pyReplace '*' ['_'] (pyReplace '%' ['%', '%']
        (((pyRepr (PyValue.pyUnicode path)).drop 2).dropLast)))).count '%'
          = 4 * path.count '%'
      rw [count_pyReplace_percent, count_pyReplace_star, count_pyReplace_percent,
        uniRepr_drop2_dropLast, count_flatten_map_escape (reprQuote_ne_percent path)]
      ring
  · intro l s h
    refine ⟨String.mk (((pyRepr (PyValue.pyStr s)).drop 1).dropLast), ?_, ?_⟩
    · unfold get_sql_query_tag
      rw [h]
    · rw [normalize_message_data]
      show (pyReplace '%' ['%', '%'] (pyReplace '*' ['_']
        (((strRepr s).drop 1).dropLast))).count '%' = 2 * s.count '%'
      rw [count_pyReplace_percent, count_pyReplace_star, strRepr_drop1_dropLast,
        count_flatten_map_escape (reprQuote_ne_percent s)]

/-- Claim C10, witness: the path `/a%b` (one `%`) produces a message
whose sanitized form has four `%`; the same explicit tag produces two. -/
theorem claim_C10_witness :
    (∃ m : String, get_request [("request", PyValue.httpRequest "/a%b".data)] = some m
      ∧ (normalize_message m).data.count '%' = 4 * "/a%b".data.count '%')
    ∧ (∃ m : String, get_sql_query_tag [("sql_query_tag", PyValue.pyStr "/a%b".data)] = some m
      ∧ (normalize_message m).data.count '%' = 2 * "/a%b".data.count '%') :=
  ⟨claim_C10.1 _ _ (by decide), claim_C10.2 _ _ (by decide)⟩

end AppendUrlToSql
